import Mathlib

/-
Shallow embedding of the NeuroGraph force-directed graph view
(src/components/NetworkGraph.tsx and the tooltip variant of the same
component in src/unnamed/part_000), together with the runtime data model
from the shared types module (GraphNode, GraphLink, NodeType).

Numbers that the browser treats as floating point are modelled as
rationals; JS `undefined`-able fields are modelled as `Option`.
NodeType is a string enum at runtime (DRUG / PROTEIN / SIDE_EFFECT), so
the `type` field is modelled as a `String`, which also keeps the
`default` branch of the fill-colour switch reachable, as it is at
runtime for untyped data.
-/

namespace NeuroGraph

/-- Runtime shape of a graph node as supplied by the caller
(types module: id, label, type, optional val, optional description). -/
structure GraphNode where
  id : String
  label : String
  type : String
  val : Option ℚ
  description : Option String
deriving DecidableEq, Repr

/-- Runtime shape of a caller-supplied link: endpoint node ids plus a
relationship label. -/
structure GraphLink where
  source : String
  target : String
  type : String
deriving DecidableEq, Repr

/-! ### Visual encoding (NetworkGraph.tsx lines 106-114, part_000 lines 151-168) -/

/-- Radius encoding `d.val ? d.val * 3 + 8 : 10`.  The conditional is a
JS truthiness test on the number `d.val`: it selects the default 10 both
when `val` is absent (`undefined`) and when `val` is the (falsy) number
0. -/
def nodeRadius (d : GraphNode) : ℚ :=
  match d.val with
  | some v => if v ≠ 0 then v * 3 + 8 else 10
  | none => 10

/-- Fill colour switch on `d.type` (the NodeType enum values are the
strings DRUG, PROTEIN, SIDE_EFFECT at runtime). -/
def nodeFill (d : GraphNode) : String :=
  if d.type = "DRUG" then "#a855f7"
  else if d.type = "PROTEIN" then "#3b82f6"
  else if d.type = "SIDE_EFFECT" then "#ef4444"
  else "#94a3b8"

/-! ### Tooltip positioning (part_000 lines 233-256, mousemove handler) -/

/-- Computed tooltip anchor for pointer `(x, y)` in a container of size
`containerWidth x containerHeight`, translated line by line from the
mousemove handler:
`left = x + 15; top = y + 15;`
`if (left > containerWidth - 250) left = x - 255;`
`if (top > containerHeight - 120) top = y - 130;`. -/
def tooltipPos (containerWidth containerHeight x y : ℚ) : ℚ × ℚ :=
  let left := x + 15
  let top := y + 15
  let left := if left > containerWidth - 250 then x - 255 else left
  let top := if top > containerHeight - 120 then y - 130 else top
  (left, top)

/-! ### Click dispatch (NetworkGraph.tsx lines 36-40 and 133-140;
part_000 lines 61-65 and 194-201, identical logic) -/

/-- DOM target of a click inside the component's svg: either a node
circle carrying its bound (cloned) datum, or any other element,
identified by its tag name — the bare svg background has tag name
"svg"; lines, edge labels and markers have their own tag names. -/
inductive ClickTarget where
  | circle (d : GraphNode)
  | element (tagName : String)
deriving DecidableEq, Repr

/-- Observable outcome of dispatching one click: the arguments passed to
`onNodeClick` (in order; `none` models the JS `null`), and whether the
svg-level background handler ran at all (circle clicks stop
propagation, so it does not). -/
structure ClickResult where
  callbackCalls : List (Option GraphNode)
  backgroundHandlerRan : Bool
deriving DecidableEq, Repr

/-- Dispatch of a single click against the handlers the component
installs.  A click on a circle runs the circle handler, which calls
`event.stopPropagation()` (so the svg handler never runs) and then, when
a callback is supplied, looks up the originally supplied node by id
(`nodes.find(n => n.id === d.id)`) and reports it if found.  A click on
any other element bubbles to the svg handler, which invokes the
callback with `null` only when `event.target.tagName === 'svg'`. -/
def dispatchClick (nodes : List GraphNode) (hasCallback : Bool)
    (target : ClickTarget) : ClickResult :=
  match target with
  | .circle d =>
      { callbackCalls :=
          if hasCallback then
            match nodes.find? (fun n => n.id == d.id) with
            | some orig => [some orig]
            | none => []
          else []
        backgroundHandlerRan := false }
  | .element tag =>
      { callbackCalls :=
          if tag = "svg" then (if hasCallback then [none] else []) else []
        backgroundHandlerRan := true }

/-! ### Zoom behaviour (NetworkGraph.tsx lines 47-54; part_000 lines 79-86)

The component configures `d3.zoom().scaleExtent([0.1, 8])` and attaches
it to the svg, then removes the double-click zoom listener with
`svg.on("dblclick.zoom", null)`.  Per d3-zoom semantics, every
wheel/pinch gesture multiplies the current scale and constrains the
result to the configured scale extent; the zoom handler copies
`event.transform` onto the root group `g`, so the scale applied to `g`
is exactly the behaviour's (clamped) scale. -/

/-- Lower bound of the configured scale extent. -/
def scaleExtentLo : ℚ := 1 / 10

/-- Upper bound of the configured scale extent. -/
def scaleExtentHi : ℚ := 8

/-- Constraint d3-zoom applies to a candidate scale, given the
configured `scaleExtent([0.1, 8])`. -/
def clampScale (k : ℚ) : ℚ := max scaleExtentLo (min scaleExtentHi k)

/-- Scale component of the transform currently applied to the root
group `g`. -/
structure ZoomState where
  k : ℚ
deriving DecidableEq, Repr

/-- Input gestures relevant to zooming: a wheel/pinch step with a
positive-or-not multiplier of any magnitude, or a double click. -/
inductive ZoomEvent where
  | wheel (mult : ℚ)
  | dblclick
deriving DecidableEq, Repr

/-- One gesture step.  Wheel/pinch rescales through the behaviour's
scale-extent constraint; double click is a no-op because the component
removed the `dblclick.zoom` listener (`svg.on("dblclick.zoom", null)`). -/
def zoomStep (s : ZoomState) (e : ZoomEvent) : ZoomState :=
  match e with
  | .wheel m => { k := clampScale (s.k * m) }
  | .dblclick => s

/-- Initial transform on `g` is the identity (scale 1). -/
def initZoom : ZoomState := { k := 1 }

/-! ### Node drag (NetworkGraph.tsx lines 189-213; part_000 lines
295-317) -/

/-- Simulation-side state of one working-copy node: current position
and the optional pin (`fx`/`fy`; JS `null`/`undefined` is `none`). -/
structure SimNodeState where
  x : ℚ
  y : ℚ
  fx : Option ℚ
  fy : Option ℚ
deriving DecidableEq, Repr

/-- State the drag handlers touch: the working-copy nodes, the
simulation's alpha target, and whether `restart()` has been called. -/
structure DragSimState where
  nodes : List SimNodeState
  alphaTarget : ℚ
  restarted : Bool
deriving DecidableEq, Repr

/-- Pointwise update of a list at one index (identity out of range). -/
def updateAt {α : Type} : List α → Nat → (α → α) → List α
  | [], _, _ => []
  | a :: l, 0, f => f a :: l
  | a :: l, i + 1, f => a :: updateAt l i f

/-- Handler `dragstarted`: `if (!event.active)
simulation.alphaTarget(0.3).restart()`, then pin the subject at its
current position (`fx = x; fy = y`).  `subject` is the index of the
dragged working-copy node; `active` is d3's count-of-other-active
gestures test. -/
def dragstarted (s : DragSimState) (subject : Nat) (active : Bool) :
    DragSimState :=
  let s := if active then s else { s with alphaTarget := 3 / 10, restarted := true }
  { s with nodes := updateAt s.nodes subject (fun n => { n with fx := some n.x, fy := some n.y }) }

/-- Handler `dragged`: the pin follows the pointer
(`fx = event.x; fy = event.y`). -/
def dragged (s : DragSimState) (subject : Nat) (px py : ℚ) : DragSimState :=
  { s with nodes := updateAt s.nodes subject (fun n => { n with fx := some px, fy := some py }) }

/-- Handler `dragended`: `if (!event.active) simulation.alphaTarget(0)`;
the NetworkGraph.tsx variant then releases the pin (`fx = null;
fy = null`) while the tooltip variant retains it, selected here by
`releasePin`. -/
def dragended (releasePin : Bool) (s : DragSimState) (subject : Nat)
    (active : Bool) : DragSimState :=
  let s := if active then s else { s with alphaTarget := 0 }
  if releasePin then
    { s with nodes := updateAt s.nodes subject (fun n => { n with fx := none, fy := none }) }
  else s

/-- Folding the `dragged` handler over the pointer positions of a
drag-move sequence on a fixed subject. -/
def dragMoves (s : DragSimState) (subject : Nat) (moves : List (ℚ × ℚ)) :
    DragSimState :=
  moves.foldl (fun t p => dragged t subject p.1 p.2) s

/-! ### Hover highlighting (NetworkGraph.tsx lines 143-167; part_000
lines 204-273)

The circles inherit `stroke` and `stroke-width` from their group
(`g.append("g").attr("stroke", ...).attr("stroke-width", 1.5)`); a
style/attribute written on the element itself overrides the inherited
group value, so element-level values are modelled as `Option`s with the
group value as fallback.  The incidence tests `l.source === d` and
`l.target === d` compare object references — after forceLink resolution
the link endpoints are the working-copy node objects — so endpoints are
modelled as indices into the node array and the hovered datum by its
index. -/

/-- State of one rendered circle: its bound datum and its element-level
radius, stroke and stroke-width. -/
structure CircleState where
  datum : GraphNode
  r : ℚ
  strokeAttr : Option String
  strokeWidthAttr : Option ℚ
deriving DecidableEq, Repr

/-- State of one rendered link line: resolved endpoint indices and the
element-level style overrides the hover handlers write. -/
structure LineState where
  src : Nat
  tgt : Nat
  styleStroke : Option String
  styleOpacity : Option ℚ
  styleWidth : Option ℚ
deriving DecidableEq, Repr

/-- State of one edge label: endpoint indices of its link and the
element-level opacity style (its class gives baseline opacity 0). -/
structure LabelState where
  src : Nat
  tgt : Nat
  styleOpacity : Option ℚ
deriving DecidableEq, Repr

/-- Visual-emphasis state of the whole scene as the hover handlers see
it, tooltip included (the NetworkGraph.tsx variant simply has no
tooltip element; its opacity field then stays 0 untouched). -/
structure SceneVisual where
  circles : List CircleState
  lines : List LineState
  edgeLabels : List LabelState
  tooltipOpacity : ℚ
deriving DecidableEq, Repr

/-- Per-variant colour constants.  NetworkGraph.tsx hard-codes the dark
palette and has no tooltip; part_000 derives its palette from
`isDarkMode` and owns a tooltip. -/
structure HoverConfig where
  groupNodeStroke : String
  hoverNodeStroke : String
  linkColor : String
  hoverLinkColor : String
  hasTooltip : Bool
deriving DecidableEq, Repr

/-- Palette of the NetworkGraph.tsx variant (lines 82, 101, 147, 150). -/
def mainConfig : HoverConfig :=
  { groupNodeStroke := "#fff"
    hoverNodeStroke := "#fff"
    linkColor := "#64748b"
    hoverLinkColor := "#fff"
    hasTooltip := false }

/-- Palette of the tooltip variant (part_000 lines 98, 146, 209, 213)
as a function of `isDarkMode`. -/
def tooltipConfig (isDark : Bool) : HoverConfig :=
  { groupNodeStroke := if isDark then "#fff" else "#f8fafc"
    hoverNodeStroke := if isDark then "#fff" else "#0f172a"
    linkColor := if isDark then "#64748b" else "#94a3b8"
    hoverLinkColor := if isDark then "#fff" else "#0f172a"
    hasTooltip := true }

/-- Incidence test of the hover handlers: the line's resolved source or
target is the hovered node object. -/
def incident (src tgt hovered : Nat) : Bool :=
  src == hovered || tgt == hovered

/-- Baseline scene right after (re)initialisation and entry animation:
radius from the encoding formula, no element-level overrides anywhere,
tooltip at opacity 0. -/
def baselineScene (ns : List GraphNode) (ls : List (Nat × Nat)) :
    SceneVisual :=
  { circles := ns.map (fun d => { datum := d, r := nodeRadius d, strokeAttr := none, strokeWidthAttr := none })
    lines := ls.map (fun l => { src := l.1, tgt := l.2, styleStroke := none, styleOpacity := none, styleWidth := none })
    edgeLabels := ls.map (fun l => { src := l.1, tgt := l.2, styleOpacity := none })
    tooltipOpacity := 0 }

/-- Mouseover handler on node index `h`: grow the hovered circle to 1.3
times its recomputed encoding radius and emphasise its stroke; recolour
every line and edge label by incidence; show the tooltip when the
variant has one. -/
def mouseover (cfg : HoverConfig) (h : Nat) (s : SceneVisual) : SceneVisual :=
  { circles := updateAt s.circles h (fun c =>
      { c with r := nodeRadius c.datum * (13 / 10)
               strokeAttr := some cfg.hoverNodeStroke
               strokeWidthAttr := some 3 })
    lines := s.lines.map (fun l =>
      { l with styleStroke := some (if incident l.src l.tgt h then cfg.hoverLinkColor else cfg.linkColor)
               styleOpacity := some (if incident l.src l.tgt h then 1 else 1 / 10)
               styleWidth := some (if incident l.src l.tgt h then 5 / 2 else 3 / 2) })
    edgeLabels := s.edgeLabels.map (fun l =>
      { l with styleOpacity := some (if incident l.src l.tgt h then 1 else 0) })
    tooltipOpacity := if cfg.hasTooltip then 1 else s.tooltipOpacity }

/-- Mouseout handler on node index `h`: radius recomputed from the
encoding formula and stroke width reset to 1.5 (the stroke colour
attribute written by mouseover is left in place); every line and edge
label reset; tooltip hidden when the variant has one. -/
def mouseout (cfg : HoverConfig) (h : Nat) (s : SceneVisual) : SceneVisual :=
  { circles := updateAt s.circles h (fun c =>
      { c with r := nodeRadius c.datum
               strokeWidthAttr := some (3 / 2) })
    lines := s.lines.map (fun l =>
      { l with styleStroke := some cfg.linkColor
               styleOpacity := some (2 / 5)
               styleWidth := some (3 / 2) })
    edgeLabels := s.edgeLabels.map (fun l => { l with styleOpacity := some 0 })
    tooltipOpacity := if cfg.hasTooltip then 0 else s.tooltipOpacity }

/-- Rendered (effective) visual of a circle: element-level values where
present, inherited group values otherwise. -/
def effCircle (cfg : HoverConfig) (c : CircleState) : ℚ × String × ℚ :=
  (c.r, c.strokeAttr.getD cfg.groupNodeStroke, c.strokeWidthAttr.getD (3 / 2))

/-- Rendered visual of a link line: styles where present, else the
group stroke colour, the group opacity 0.4, the width attribute 1.5. -/
def effLine (cfg : HoverConfig) (l : LineState) : Nat × Nat × String × ℚ × ℚ :=
  (l.src, l.tgt, l.styleStroke.getD cfg.linkColor, l.styleOpacity.getD (2 / 5),
    l.styleWidth.getD (3 / 2))

/-- Rendered opacity of an edge label: style where present, else the
class baseline 0. -/
def effLabel (l : LabelState) : Nat × Nat × ℚ :=
  (l.src, l.tgt, l.styleOpacity.getD 0)

/-- Whole rendered visual-emphasis state of the scene. -/
def effScene (cfg : HoverConfig) (s : SceneVisual) :
    List (ℚ × String × ℚ) × List (Nat × Nat × String × ℚ × ℚ) × List (Nat × Nat × ℚ) × ℚ :=
  (s.circles.map (effCircle cfg), s.lines.map (effLine cfg),
    s.edgeLabels.map effLabel, s.tooltipOpacity)

/-! ### Scene initialisation (NetworkGraph.tsx lines 18-131; part_000
lines 42-191)

The effect body runs in source order: the `nodes.length === 0` early
return comes first, before anything touches the svg; then the svg is
cleared and a root group appended; then the simulation is built —
`d3.forceLink(linksData).id(d => d.id)` resolves every link endpoint id
against the working-copy nodes and, per d3-force semantics, throws
`Error("node not found: " + nodeId)` for an id with no matching node,
which aborts the effect before any marker, line, label or circle is
appended; only after successful resolution are the shapes created. -/

/-- Endpoint lookup of `forceLink(...).id(d => d.id)` (d3-force
semantics: a missing id throws; with the unique-id input invariant the
first and only match is returned). -/
def linkFind (ns : List GraphNode) (nodeId : String) : Except String GraphNode :=
  match ns.find? (fun n => n.id == nodeId) with
  | some n => .ok n
  | none => .error ("node not found: " ++ nodeId)

/-- Resolution of every link's source and target id into node objects,
in order, stopping at the first failure (d3-force walks the links in a
for loop and the first missing id throws). -/
def resolveLinks (ns : List GraphNode) :
    List GraphLink → Except String (List (GraphNode × GraphNode))
  | [] => .ok []
  | l :: ls =>
    match linkFind ns l.source with
    | .error e => .error e
    | .ok s =>
      match linkFind ns l.target with
      | .error e => .error e
      | .ok t =>
        match resolveLinks ns ls with
        | .error e => .error e
        | .ok rest => .ok ((s, t) :: rest)

/-- Elements living on the render surface (inside the svg). -/
inductive SvgElement where
  | group
  | marker
  | line (l : GraphLink)
  | edgeLabel (text : String)
  | circle (d : GraphNode)
  | nodeLabel (text : String)
deriving DecidableEq, Repr

/-- Outcome of running the initialisation effect once: the early-return
no-op, an aborted run (the thrown resolution error plus the surface as
left behind at the throw), or a completed scene. -/
inductive InitResult where
  | noop (surface : List SvgElement)
  | failed (err : String) (surface : List SvgElement)
  | ok (surface : List SvgElement) (resolved : List (GraphNode × GraphNode))
deriving DecidableEq, Repr

/-- The initialisation effect over a prior render surface.  The
working copies `nodesData`/`linksData` are shallow clones and therefore
field-for-field equal to the caller's records at this point, so the
caller's records stand in for them as bound data. -/
def initScene (prior : List SvgElement) (ns : List GraphNode)
    (ls : List GraphLink) : InitResult :=
  if ns.length = 0 then .noop prior
  else
    let surface : List SvgElement := []
    let surface := surface ++ [.group]
    match resolveLinks ns ls with
    | .error e => .failed e surface
    | .ok resolved =>
        let surface := surface ++ [.marker]
          ++ ls.map SvgElement.line
          ++ ls.map (fun l => SvgElement.edgeLabel l.type)
          ++ ns.map SvgElement.circle
          ++ ns.map (fun d => SvgElement.nodeLabel d.label)
        .ok surface resolved

/-! ### Object store and the frame property of the working copies
(NetworkGraph.tsx lines 27-29, 57-61, 169-213; part_000 lines 52-54)

Caller data and working copies are distinct JS objects: `nodes.map(d =>
(\x7b ...d \x7d))` allocates a fresh object per node with every field
copied.  The store models object identity: an object is an index into
an array of records, the caller's arrays are the references `0..n-1`,
and initialisation appends the clones at `n..2n-1`.  All simulation and
gesture mutation targets clone references only. -/

/-- Stored node object: caller fields plus the mutable simulation
fields the solver and the drag handlers write. -/
structure NodeObj where
  id : String
  label : String
  type : String
  val : Option ℚ
  description : Option String
  x : Option ℚ
  y : Option ℚ
  fx : Option ℚ
  fy : Option ℚ
deriving DecidableEq, Repr

/-- A caller-supplied node as a stored object: the simulation fields
are absent (`undefined`) until the solver writes them. -/
def toNodeObj (d : GraphNode) : NodeObj :=
  { id := d.id, label := d.label, type := d.type, val := d.val
    description := d.description, x := none, y := none, fx := none, fy := none }

/-- Stored link object: each endpoint is still an id string
(`Sum.inl`) or has been resolved to a node-object reference
(`Sum.inr`). -/
structure LinkObj where
  source : String ⊕ Nat
  target : String ⊕ Nat
  type : String
deriving DecidableEq, Repr

/-- A caller-supplied link as a stored object: endpoints are ids. -/
def toLinkObj (l : GraphLink) : LinkObj :=
  { source := .inl l.source, target := .inl l.target, type := l.type }

/-- The object store of one mounted scene: node and link objects by
reference, with the counts marking where the caller's objects end and
the clones begin. -/
structure SceneStore where
  nodeObjs : List NodeObj
  linkObjs : List LinkObj
  callerNodeCount : Nat
  callerLinkCount : Nat
deriving DecidableEq, Repr

/-- Resolution of one cloned link's endpoint id to a reference into the
clone region (forceLink replaces `link.source` by the node object; the
object found is the clone, stored at `n + i`). -/
def resolveEndpoint (n : Nat) (ns : List GraphNode) (nodeId : String) :
    String ⊕ Nat :=
  match ns.findIdx? (fun d => d.id == nodeId) with
  | some i => .inr (n + i)
  | none => .inl nodeId

/-- Store after initialisation: caller objects first, then the shallow
clones; the clone links get their endpoints resolved in place, the
caller links keep their id strings. -/
def initStore (ns : List GraphNode) (ls : List GraphLink) : SceneStore :=
  { nodeObjs := ns.map toNodeObj ++ ns.map toNodeObj
    linkObjs := ls.map toLinkObj ++ ls.map (fun l =>
      { source := resolveEndpoint ns.length ns l.source
        target := resolveEndpoint ns.length ns l.target
        type := l.type })
    callerNodeCount := ns.length
    callerLinkCount := ls.length }

/-- Position write-back of one solver tick onto the clone region:
`ps` holds the new `(x, y)` per clone, written starting at index `k`. -/
def writePositions : List NodeObj → Nat → List (ℚ × ℚ) → List NodeObj
  | [], _, _ => []
  | o :: l, 0, [] => o :: l
  | o :: l, 0, p :: ps => { o with x := some p.1, y := some p.2 } :: writePositions l 0 ps
  | o :: l, k + 1, ps => o :: writePositions l k ps

/-- Mutations the simulation and the gesture handlers perform after
initialisation, each addressed to clone `i` (store index
`callerNodeCount + i`). -/
inductive SimOp where
  | tick (ps : List (ℚ × ℚ))
  | dragStartPin (i : Nat)
  | dragMovePin (i : Nat) (px py : ℚ)
  | dragEndRelease (i : Nat)
  | hover (i : Nat)
deriving DecidableEq, Repr

/-- Effect of one operation on the store.  Hover touches only visual
attributes, never the stored objects. -/
def applyOp (s : SceneStore) (op : SimOp) : SceneStore :=
  match op with
  | .tick ps => { s with nodeObjs := writePositions s.nodeObjs s.callerNodeCount ps }
  | .dragStartPin i =>
      { s with nodeObjs := updateAt s.nodeObjs (s.callerNodeCount + i)
                  (fun o => { o with fx := o.x, fy := o.y }) }
  | .dragMovePin i px py =>
      { s with nodeObjs := updateAt s.nodeObjs (s.callerNodeCount + i)
                  (fun o => { o with fx := some px, fy := some py }) }
  | .dragEndRelease i =>
      { s with nodeObjs := updateAt s.nodeObjs (s.callerNodeCount + i)
                  (fun o => { o with fx := none, fy := none }) }
  | .hover _ => s

/-- Store after initialisation and an arbitrary interaction history. -/
def runScene (ns : List GraphNode) (ls : List GraphLink)
    (ops : List SimOp) : SceneStore :=
  ops.foldl applyOp (initStore ns ls)

/-! ### Helper lemmas -/

theorem updateAt_length {α : Type} (l : List α) (i : Nat) (f : α → α) :
    (updateAt l i f).length = l.length := by
  induction l generalizing i with
  | nil => rfl
  | cons a l ih =>
    cases i with
    | zero => rfl
    | succ i => simp [updateAt, ih]

theorem getElem?_updateAt_ne {α : Type} (l : List α) (i j : Nat) (f : α → α)
    (h : j ≠ i) : (updateAt l i f)[j]? = l[j]? := by
  induction l generalizing i j with
  | nil => rfl
  | cons a l ih =>
    cases i with
    | zero =>
      cases j with
      | zero => exact absurd rfl h
      | succ j => simp [updateAt]
    | succ i =>
      cases j with
      | zero => simp [updateAt]
      | succ j => simpa [updateAt] using ih i j (fun hj => h (by omega))

theorem getElem?_updateAt_self {α : Type} (l : List α) (i : Nat) (f : α → α) :
    (updateAt l i f)[i]? = l[i]?.map f := by
  induction l generalizing i with
  | nil => rfl
  | cons a l ih =>
    cases i with
    | zero => simp [updateAt]
    | succ i => simpa [updateAt] using ih i

theorem updateAt_updateAt {α : Type} (l : List α) (i : Nat) (f g : α → α) :
    updateAt (updateAt l i f) i g = updateAt l i (fun a => g (f a)) := by
  induction l generalizing i with
  | nil => rfl
  | cons a l ih =>
    cases i with
    | zero => rfl
    | succ i => simp [updateAt, ih]

theorem map_updateAt_map {α β γ : Type} (g : γ → α) (e : α → β) (f : α → α)
    (hpt : ∀ d, e (f (g d)) = e (g d)) (ns : List γ) (i : Nat) :
    (updateAt (ns.map g) i f).map e = (ns.map g).map e := by
  induction ns generalizing i with
  | nil => rfl
  | cons d ns ih =>
    cases i with
    | zero => simp [updateAt, hpt]
    | succ i => simp [updateAt, ih]

theorem find_by_id_unique (nodes : List GraphNode) (d orig : GraphNode)
    (hmem : orig ∈ nodes) (hid : orig.id = d.id)
    (huniq : nodes.Pairwise (fun a b => a.id ≠ b.id)) :
    nodes.find? (fun n => n.id == d.id) = some orig := by
  induction nodes with
  | nil => cases hmem
  | cons a l ih =>
    rcases List.mem_cons.mp hmem with rfl | hmem'
    · exact List.find?_cons_of_pos _ (by simpa using hid)
    · rw [List.find?_cons_of_neg, ih hmem' (List.pairwise_cons.mp huniq).2]
      simp only [beq_iff_eq]
      intro hcontra
      exact (List.pairwise_cons.mp huniq).1 orig hmem' (by rw [hcontra, hid])

theorem clampScale_mem (k : ℚ) :
    scaleExtentLo ≤ clampScale k ∧ clampScale k ≤ scaleExtentHi := by
  refine ⟨le_max_left _ _, max_le ?_ (min_le_left _ _)⟩
  norm_num [scaleExtentLo, scaleExtentHi]

theorem zoom_foldl_mem (evs : List ZoomEvent) (s : ZoomState)
    (h : scaleExtentLo ≤ s.k ∧ s.k ≤ scaleExtentHi) :
    scaleExtentLo ≤ (evs.foldl zoomStep s).k ∧
      (evs.foldl zoomStep s).k ≤ scaleExtentHi := by
  induction evs generalizing s with
  | nil => exact h
  | cons e evs ih =>
    refine ih (zoomStep s e) ?_
    cases e with
    | wheel m => exact clampScale_mem _
    | dblclick => exact h

theorem linkFind_error (ns : List GraphNode) (sid : String)
    (h : ∀ n ∈ ns, n.id ≠ sid) :
    linkFind ns sid = .error ("node not found: " ++ sid) := by
  have hnone : ns.find? (fun n => n.id == sid) = none := by
    rw [List.find?_eq_none]
    intro n hn
    simpa using h n hn
  simp [linkFind, hnone]

theorem resolveLinks_error_of_bad (ns : List GraphNode) (ls : List GraphLink)
    (hbad : ∃ l ∈ ls, (∀ n ∈ ns, n.id ≠ l.source) ∨ (∀ n ∈ ns, n.id ≠ l.target)) :
    ∃ e, resolveLinks ns ls = .error e := by
  induction ls with
  | nil => rcases hbad with ⟨l, hl, _⟩; cases hl
  | cons a ls ih =>
    rcases hbad with ⟨l, hl, hor⟩
    rcases List.mem_cons.mp hl with rfl | hl'
    · rcases hor with hs | ht
      · exact ⟨"node not found: " ++ l.source,
          by simp [resolveLinks, linkFind_error ns l.source hs]⟩
      · rcases hfs : linkFind ns l.source with e | s
        · exact ⟨e, by simp [resolveLinks, hfs]⟩
        · exact ⟨"node not found: " ++ l.target,
            by simp [resolveLinks, hfs, linkFind_error ns l.target ht]⟩
    · rcases ih ⟨l, hl', hor⟩ with ⟨e, he⟩
      rcases hfs : linkFind ns a.source with e1 | s
      · exact ⟨e1, by simp [resolveLinks, hfs]⟩
      · rcases hft : linkFind ns a.target with e2 | t
        · exact ⟨e2, by simp [resolveLinks, hfs, hft]⟩
        · exact ⟨e, by simp [resolveLinks, hfs, hft, he]⟩

theorem writePositions_getElem?_lt (l : List NodeObj) (k : Nat)
    (ps : List (ℚ × ℚ)) (j : Nat) (hj : j < k) :
    (writePositions l k ps)[j]? = l[j]? := by
  induction l generalizing k ps j with
  | nil => simp [writePositions]
  | cons o l ih =>
    cases k with
    | zero => omega
    | succ k =>
      cases j with
      | zero => simp [writePositions]
      | succ j =>
        have := ih k ps j (by omega)
        simpa [writePositions] using this

theorem dragMoves_getElem?_ne (s : DragSimState) (i : Nat)
    (moves : List (ℚ × ℚ)) (j : Nat) (hj : j ≠ i) :
    (dragMoves s i moves).nodes[j]? = s.nodes[j]? := by
  induction moves generalizing s with
  | nil => rfl
  | cons p moves ih =>
    rw [dragMoves, List.foldl_cons, ← dragMoves]
    rw [ih]
    exact getElem?_updateAt_ne _ _ _ _ hj

theorem dragMoves_length (s : DragSimState) (i : Nat) (moves : List (ℚ × ℚ)) :
    (dragMoves s i moves).nodes.length = s.nodes.length := by
  induction moves generalizing s with
  | nil => rfl
  | cons p moves ih =>
    rw [dragMoves, List.foldl_cons, ← dragMoves, ih]
    exact updateAt_length _ _ _

/-! ### Claim theorems -/

/-- C9 (counterexample): the claim says the radius equals val * 3 + 8
whenever the val field is present, but `d.val ? d.val * 3 + 8 : 10` is
a JS truthiness test, so a present val of 0 yields the default radius
10, not 0 * 3 + 8 = 8. -/
theorem radius_truthiness_counterexample :
    nodeRadius ⟨"z", "Z", "DRUG", some 0, none⟩ = 10 ∧
    (0 : ℚ) * 3 + 8 ≠ 10 := by
  constructor
  · rfl
  · norm_num

/-- C9 (amended): the rendered radius is val * 3 + 8 when val is
present and nonzero, and the default 10 when val is absent or zero
(JS truthiness of the number); the fill colour is keyed solely on the
node type through the fixed palette. -/
theorem radius_and_fill_encoding (d : GraphNode) :
    (∀ v : ℚ, d.val = some v → v ≠ 0 → nodeRadius d = v * 3 + 8) ∧
    ((d.val = none ∨ d.val = some 0) → nodeRadius d = 10) ∧
    (d.type = "DRUG" → nodeFill d = "#a855f7") ∧
    (d.type = "PROTEIN" → nodeFill d = "#3b82f6") ∧
    (d.type = "SIDE_EFFECT" → nodeFill d = "#ef4444") ∧
    (d.type ≠ "DRUG" → d.type ≠ "PROTEIN" → d.type ≠ "SIDE_EFFECT" →
      nodeFill d = "#94a3b8") := by
  refine ⟨?_, ?_, ?_, ?_, ?_, ?_⟩
  · intro v hv hvz
    simp [nodeRadius, hv, hvz]
  · rintro (hv | hv) <;> simp [nodeRadius, hv]
  · intro ht
    simp [nodeFill, ht]
  · intro ht
    simp [nodeFill, ht]
  · intro ht
    simp [nodeFill, ht]
  · intro h1 h2 h3
    simp only [nodeFill, if_neg h1, if_neg h2, if_neg h3]

/-- C9 (witness): a PROTEIN node with val 2 renders at radius 14 with
the blue fill. -/
theorem radius_and_fill_encoding_witness :
    nodeRadius ⟨"n", "N", "PROTEIN", some 2, none⟩ = 14 ∧
    nodeFill ⟨"n", "N", "PROTEIN", some 2, none⟩ = "#3b82f6" := by
  constructor
  · rw [(radius_and_fill_encoding _).1 2 rfl (by norm_num)]
    norm_num
  · exact (radius_and_fill_encoding _).2.2.2.1 rfl

/-- C3 (counterexample): for the pointer (40, 0) inside a 300 x 300
container the horizontal flip fires (40 + 15 > 300 - 250) and puts the
anchor at x = -215, to the left of the container, so the tooltip
renders outside the hosting container. -/
theorem tooltip_overflow_counterexample :
    tooltipPos 300 300 40 0 = (-215, 15) ∧
    (-215 : ℚ) < 0 ∧ (0 : ℚ) ≤ 40 ∧ (40 : ℚ) ≤ 300 := by
  refine ⟨?_, by norm_num, by norm_num, by norm_num⟩
  norm_num [tooltipPos]

/-- C3 (amended): the anchor is pointer + (15, 15), with the horizontal
coordinate flipped to x - 255 when x + 15 > W - 250 and the vertical
flipped to y - 130 when y + 15 > H - 120; the pointer (W - 10, H - 10)
triggers both flips; and a tooltip box of at most 240 x 120 stays
inside the container provided the container is at least 520 wide and
265 tall (for smaller containers a flip can leave the container, as
the counterexample shows). -/
theorem tooltip_position_spec (W H x y tw th : ℚ)
    (hx0 : 0 ≤ x) (hxW : x ≤ W) (hy0 : 0 ≤ y) (hyH : y ≤ H) :
    (¬ x + 15 > W - 250 → ¬ y + 15 > H - 120 →
      tooltipPos W H x y = (x + 15, y + 15)) ∧
    (x + 15 > W - 250 → (tooltipPos W H x y).1 = x - 255) ∧
    (y + 15 > H - 120 → (tooltipPos W H x y).2 = y - 130) ∧
    ((tooltipPos W H (W - 10) (H - 10)).1 = W - 10 - 255 ∧
      (tooltipPos W H (W - 10) (H - 10)).2 = H - 10 - 130) ∧
    (520 ≤ W → 265 ≤ H → 0 ≤ tw → tw ≤ 240 → 0 ≤ th → th ≤ 120 →
      0 ≤ (tooltipPos W H x y).1 ∧ (tooltipPos W H x y).1 + tw ≤ W ∧
      0 ≤ (tooltipPos W H x y).2 ∧ (tooltipPos W H x y).2 + th ≤ H) := by
  have heq : ∀ W H x y : ℚ, tooltipPos W H x y =
      (if x + 15 > W - 250 then x - 255 else x + 15,
        if y + 15 > H - 120 then y - 130 else y + 15) := fun _ _ _ _ => rfl
  refine ⟨?_, ?_, ?_, ⟨?_, ?_⟩, ?_⟩
  · intro h1 h2
    rw [heq, if_neg h1, if_neg h2]
  · intro h1
    rw [heq]
    simp only [if_pos h1]
  · intro h2
    rw [heq]
    simp only [if_pos h2]
  · rw [heq]
    simp only [if_pos (show W - 10 + 15 > W - 250 by linarith)]
  · rw [heq]
    simp only [if_pos (show H - 10 + 15 > H - 120 by linarith)]
  · intro hW hH htw0 htw hth0 hth
    rw [heq]
    by_cases hL : x + 15 > W - 250 <;> by_cases hT : y + 15 > H - 120 <;>
      simp only [if_pos, if_neg, hL, hT, if_true, if_false] <;>
      exact ⟨by linarith, by linarith, by linarith, by linarith⟩

/-- C3 (witness): a 600 x 400 container with the pointer at (100, 50):
no flip, anchor (115, 65), and a 240 x 100 tooltip box stays inside. -/
theorem tooltip_position_spec_witness :
    tooltipPos 600 400 100 50 = (115, 65) ∧
    0 ≤ (tooltipPos 600 400 100 50).1 ∧
    (tooltipPos 600 400 100 50).1 + 240 ≤ 600 ∧
    0 ≤ (tooltipPos 600 400 100 50).2 ∧
    (tooltipPos 600 400 100 50).2 + 100 ≤ 400 := by
  have h := tooltip_position_spec 600 400 100 50 240 100
    (by norm_num) (by norm_num) (by norm_num) (by norm_num)
  have hbox := h.2.2.2.2 (by norm_num) (by norm_num) (by norm_num)
    (by norm_num) (by norm_num) (by norm_num)
  refine ⟨?_, hbox.1, hbox.2.1, hbox.2.2.1, hbox.2.2.2⟩
  rw [h.1 (by norm_num) (by norm_num)]
  norm_num

/-- C1: a click on a node circle stops propagation (the background
handler never runs) and reports the originally supplied node object,
found by id in the caller's array; a click on the bare svg background
reports null. -/
theorem click_reports_original_node (nodes : List GraphNode)
    (d orig : GraphNode) (hmem : orig ∈ nodes) (hid : orig.id = d.id)
    (huniq : nodes.Pairwise (fun a b => a.id ≠ b.id)) :
    dispatchClick nodes true (.circle d) =
      { callbackCalls := [some orig], backgroundHandlerRan := false } ∧
    dispatchClick nodes true (.element "svg") =
      { callbackCalls := [none], backgroundHandlerRan := true } := by
  constructor
  · simp [dispatchClick, find_by_id_unique nodes d orig hmem hid huniq]
  · simp [dispatchClick]

/-- C1 (witness): in a two-node scene, clicking the working copy of
node 1 reports the caller's node 1 object (description included) and a
background click reports null. -/
theorem click_reports_original_node_witness :
    dispatchClick
        [⟨"1", "A", "DRUG", none, some "caller object"⟩,
          ⟨"2", "B", "PROTEIN", none, none⟩]
        true (.circle ⟨"1", "A", "DRUG", none, some "caller object"⟩) =
      ⟨[some ⟨"1", "A", "DRUG", none, some "caller object"⟩], false⟩ ∧
    dispatchClick
        [⟨"1", "A", "DRUG", none, some "caller object"⟩,
          ⟨"2", "B", "PROTEIN", none, none⟩]
        true (.element "svg") =
      ⟨[none], true⟩ :=
  click_reports_original_node _ _ _ (by simp) rfl (by simp)

/-- C10: a click whose target is neither a node circle nor the bare svg
element invokes the callback with nothing at all; a node value can only
come from a circle click and null only from a target whose tag name is
exactly svg. -/
theorem non_node_non_svg_click (nodes : List GraphNode) (hasCb : Bool)
    (tag : String) (htag : tag ≠ "svg") :
    (dispatchClick nodes hasCb (.element tag)).callbackCalls = [] ∧
    (∀ t n, some n ∈ (dispatchClick nodes hasCb t).callbackCalls →
      ∃ d, t = ClickTarget.circle d) ∧
    (∀ t, (none : Option GraphNode) ∈ (dispatchClick nodes hasCb t).callbackCalls →
      t = ClickTarget.element "svg") := by
  refine ⟨?_, ?_, ?_⟩
  · simp [dispatchClick, htag]
  · intro t n h
    cases t with
    | circle d => exact ⟨d, rfl⟩
    | element tg =>
      exfalso
      revert h
      simp only [dispatchClick]
      split_ifs <;> simp
  · intro t h
    cases t with
    | circle d =>
      exfalso
      revert h
      simp only [dispatchClick]
      cases hasCb with
      | false => simp
      | true =>
        cases hfind : nodes.find? (fun n => n.id == d.id) <;> simp [hfind]
    | element tg =>
      by_cases htg : tg = "svg"
      · rw [htg]
      · exfalso
        revert h
        simp [dispatchClick, htg]

/-- C10 (witness): a click on a link line (tag name "line") invokes
nothing. -/
theorem non_node_non_svg_click_witness :
    (dispatchClick [] true (.element "line")).callbackCalls = [] :=
  (non_node_non_svg_click [] true "line" (by decide)).1

/-- C6: over every sequence of wheel/pinch and double-click gestures,
the scale of the transform applied to the root group stays within
the scale extent 0.1 to 8, and a double click never changes the zoom
state (its zoom listener was removed). -/
theorem zoom_clamped_and_dblclick_disabled (evs : List ZoomEvent) :
    scaleExtentLo ≤ (evs.foldl zoomStep initZoom).k ∧
    (evs.foldl zoomStep initZoom).k ≤ scaleExtentHi ∧
    (∀ s : ZoomState, zoomStep s ZoomEvent.dblclick = s) := by
  have h := zoom_foldl_mem evs initZoom
    (by norm_num [initZoom, scaleExtentLo, scaleExtentHi])
  exact ⟨h.1, h.2, fun s => rfl⟩

/-- C5: with an empty node set the initialisation effect returns before
touching anything: the render surface is exactly the prior one, no
simulation is created, and no error is raised. -/
theorem empty_nodes_noop (prior : List SvgElement) (ns : List GraphNode)
    (ls : List GraphLink) (h : ns.length = 0) :
    initScene prior ns ls = .noop prior := by
  simp [initScene, h]

/-- C5 (witness): an empty node set leaves a nonempty prior surface
untouched even when a (necessarily dangling) link is supplied. -/
theorem empty_nodes_noop_witness :
    initScene [SvgElement.group] []
        [{ source := "a", target := "b", type := "t" }] =
      InitResult.noop [SvgElement.group] :=
  empty_nodes_noop _ _ _ rfl

/-- C4 (counterexample): with an empty node set every link id is absent
from the node set, yet initialisation does not fail: the empty-input
early return fires before link resolution, so the malformed link yields
a silent no-op rather than a rejected scene. -/
theorem malformed_link_empty_nodes_counterexample :
    (∀ n ∈ ([] : List GraphNode), n.id ≠ "a") ∧
    initScene [] [] [⟨"a", "b", "t"⟩] = InitResult.noop [] ∧
    ∀ err surf, initScene [] [] [⟨"a", "b", "t"⟩] ≠ InitResult.failed err surf := by
  refine ⟨by simp, rfl, ?_⟩
  intro err surf hcontra
  simp [initScene] at hcontra

/-- C4 (amended): for a non-empty node set, a link whose source or
target id is absent from the node set makes initialisation fail at
forceLink resolution: the run ends in an error with only the empty root
group on the surface — no circle and no line was rendered — and the
scene is never produced with the link dropped. -/
theorem malformed_link_fails_init (prior : List SvgElement)
    (ns : List GraphNode) (ls : List GraphLink) (hne : ns ≠ [])
    (hbad : ∃ l ∈ ls, (∀ n ∈ ns, n.id ≠ l.source) ∨ (∀ n ∈ ns, n.id ≠ l.target)) :
    ∃ err, initScene prior ns ls = InitResult.failed err [SvgElement.group] ∧
      ∀ surf res, initScene prior ns ls ≠ InitResult.ok surf res := by
  rcases resolveLinks_error_of_bad ns ls hbad with ⟨e, he⟩
  have hfail : initScene prior ns ls = InitResult.failed e [SvgElement.group] := by
    simp [initScene, List.length_eq_zero, hne, he]
  refine ⟨e, hfail, ?_⟩
  intro surf res hcontra
  rw [hfail] at hcontra
  exact absurd hcontra (by simp)

/-- C4 (witness): one node and one link pointing at a missing id:
initialisation fails with a bare surface. -/
theorem malformed_link_fails_init_witness :
    ∃ err, initScene [] [⟨"1", "A", "DRUG", none, none⟩]
        [⟨"1", "missing", "t"⟩] =
      InitResult.failed err [SvgElement.group] ∧
      ∀ surf res, initScene [] [⟨"1", "A", "DRUG", none, none⟩]
          [⟨"1", "missing", "t"⟩] ≠ InitResult.ok surf res :=
  malformed_link_fails_init _ _ _ (by simp)
    ⟨⟨"1", "missing", "t"⟩, by simp, Or.inr (by simp)⟩

/-- C7: a standalone drag gesture (no other gesture active at its start
or end): at drag start the node is pinned at its current position and
the alpha target is raised to 0.3 with a restart; after every drag-move
event the pin equals that event's pointer position; at drag end the
alpha target returns to 0; and no other node's state is ever touched —
in both the pin-releasing and the pin-retaining variant. -/
theorem drag_gesture_spec (rel : Bool) (s0 : DragSimState) (i : Nat)
    (n0 : SimNodeState) (h0 : s0.nodes[i]? = some n0)
    (moves : List (ℚ × ℚ)) :
    ((dragstarted s0 i false).nodes[i]? =
        some { n0 with fx := some n0.x, fy := some n0.y } ∧
      (dragstarted s0 i false).alphaTarget = 3 / 10 ∧
      (dragstarted s0 i false).restarted = true) ∧
    (∀ pre p post, moves = pre ++ p :: post →
      ∃ m : SimNodeState,
        (dragMoves (dragstarted s0 i false) i (pre ++ [p])).nodes[i]? = some m ∧
        m.fx = some p.1 ∧ m.fy = some p.2) ∧
    (dragended rel (dragMoves (dragstarted s0 i false) i moves) i
        false).alphaTarget = 0 ∧
    (∀ j, j ≠ i →
      (dragended rel (dragMoves (dragstarted s0 i false) i moves) i
          false).nodes[j]? = s0.nodes[j]?) := by
  refine ⟨⟨?_, rfl, rfl⟩, ?_, ?_, ?_⟩
  · simp [dragstarted, getElem?_updateAt_self, h0]
  · intro pre p post hm
    have hi : i < s0.nodes.length := by
      by_contra hcon
      rw [List.getElem?_eq_none (by omega)] at h0
      cases h0
    have hlen : (dragMoves (dragstarted s0 i false) i pre).nodes.length =
        s0.nodes.length := by
      rw [dragMoves_length]
      simp [dragstarted, updateAt_length]
    obtain ⟨m', hm'⟩ : ∃ m',
        (dragMoves (dragstarted s0 i false) i pre).nodes[i]? = some m' := by
      rw [List.getElem?_eq_getElem (by omega)]
      exact ⟨_, rfl⟩
    refine ⟨{ m' with fx := some p.1, fy := some p.2 }, ?_, rfl, rfl⟩
    have happ : dragMoves (dragstarted s0 i false) i (pre ++ [p]) =
        dragged (dragMoves (dragstarted s0 i false) i pre) i p.1 p.2 := by
      simp [dragMoves, List.foldl_append]
    rw [happ]
    simp [dragged, getElem?_updateAt_self, hm']
  · cases rel <;> simp [dragended]
  · intro j hj
    have h1 : (dragstarted s0 i false).nodes[j]? = s0.nodes[j]? := by
      simp [dragstarted, getElem?_updateAt_ne _ _ _ _ hj]
    have h2 := dragMoves_getElem?_ne (dragstarted s0 i false) i moves j hj
    cases rel with
    | false => simp [dragended, h2, h1]
    | true => simp [dragended, getElem?_updateAt_ne _ _ _ _ hj, h2, h1]

/-- C7 (witness): a two-node scene, dragging node 0 through one move to
(5, 6): the pin lands on the pointer, and the pin-releasing variant
ends with alpha target 0 while node 1 is untouched. -/
theorem drag_gesture_spec_witness :
    (∃ m : SimNodeState,
      (dragMoves
          (dragstarted ⟨[⟨1, 2, none, none⟩, ⟨3, 4, none, none⟩], 0, false⟩
            0 false) 0 [(5, 6)]).nodes[0]? = some m ∧
        m.fx = some 5 ∧ m.fy = some 6) ∧
    (dragended true
        (dragMoves
          (dragstarted ⟨[⟨1, 2, none, none⟩, ⟨3, 4, none, none⟩], 0, false⟩
            0 false) 0 [(5, 6)]) 0 false).alphaTarget = 0 ∧
    (dragended true
        (dragMoves
          (dragstarted ⟨[⟨1, 2, none, none⟩, ⟨3, 4, none, none⟩], 0, false⟩
            0 false) 0 [(5, 6)]) 0 false).nodes[1]? =
      some ⟨3, 4, none, none⟩ := by
  have h := drag_gesture_spec true
    ⟨[⟨1, 2, none, none⟩, ⟨3, 4, none, none⟩], 0, false⟩ 0
    ⟨1, 2, none, none⟩ rfl [(5, 6)]
  exact ⟨h.2.1 [] (5, 6) [] rfl, h.2.2.1, h.2.2.2 1 (by omega)⟩

/-- One interaction step never changes the caller's objects: every
write lands at a clone reference (at or above callerNodeCount), and
link objects are never written after initialisation. -/
theorem applyOp_preserves_caller (ns : List GraphNode) (s : SceneStore)
    (op : SimOp) (hc : s.callerNodeCount = ns.length)
    (hn : ∀ i, i < ns.length → s.nodeObjs[i]? = (ns.map toNodeObj)[i]?) :
    (applyOp s op).callerNodeCount = ns.length ∧
    (∀ i, i < ns.length → (applyOp s op).nodeObjs[i]? = (ns.map toNodeObj)[i]?) ∧
    (applyOp s op).linkObjs = s.linkObjs := by
  cases op with
  | tick ps =>
    refine ⟨hc, fun i hi => ?_, rfl⟩
    simp only [applyOp]
    rw [writePositions_getElem?_lt _ _ _ _ (by omega)]
    exact hn i hi
  | dragStartPin k =>
    refine ⟨hc, fun i hi => ?_, rfl⟩
    simp only [applyOp]
    rw [getElem?_updateAt_ne _ _ _ _ (by omega)]
    exact hn i hi
  | dragMovePin k px py =>
    refine ⟨hc, fun i hi => ?_, rfl⟩
    simp only [applyOp]
    rw [getElem?_updateAt_ne _ _ _ _ (by omega)]
    exact hn i hi
  | dragEndRelease k =>
    refine ⟨hc, fun i hi => ?_, rfl⟩
    simp only [applyOp]
    rw [getElem?_updateAt_ne _ _ _ _ (by omega)]
    exact hn i hi
  | hover k => exact ⟨hc, hn, rfl⟩

theorem foldl_applyOp_preserves (ns : List GraphNode) (ops : List SimOp)
    (s : SceneStore) (hc : s.callerNodeCount = ns.length)
    (hn : ∀ i, i < ns.length → s.nodeObjs[i]? = (ns.map toNodeObj)[i]?) :
    (ops.foldl applyOp s).callerNodeCount = ns.length ∧
    (∀ i, i < ns.length →
      (ops.foldl applyOp s).nodeObjs[i]? = (ns.map toNodeObj)[i]?) ∧
    (ops.foldl applyOp s).linkObjs = s.linkObjs := by
  induction ops generalizing s with
  | nil => exact ⟨hc, hn, rfl⟩
  | cons op ops ih =>
    have hstep := applyOp_preserves_caller ns s op hc hn
    have hrest := ih (applyOp s op) hstep.1 hstep.2.1
    exact ⟨hrest.1, hrest.2.1, hrest.2.2.trans hstep.2.2⟩

/-- C8: initialisation stores shallow clones of the caller's nodes and
links at fresh references (the clone is field-for-field equal to the
caller's object), and every subsequent tick, drag or hover mutates only
clone references: after any interaction history the caller's node and
link objects read back exactly as supplied — in particular the caller's
links still hold their original id strings, untouched by endpoint
resolution. -/
theorem caller_data_unchanged (ns : List GraphNode) (ls : List GraphLink)
    (ops : List SimOp) :
    (∀ i, i < ns.length →
      (runScene ns ls ops).nodeObjs[i]? = (ns.map toNodeObj)[i]?) ∧
    (∀ j, j < ls.length →
      (runScene ns ls ops).linkObjs[j]? = (ls.map toLinkObj)[j]?) ∧
    (∀ i, i < ns.length →
      (initStore ns ls).nodeObjs[ns.length + i]? = (ns.map toNodeObj)[i]?) := by
  have hninit : ∀ i, i < ns.length →
      (initStore ns ls).nodeObjs[i]? = (ns.map toNodeObj)[i]? := by
    intro i hi
    simp only [initStore]
    rw [List.getElem?_append_left (by simpa using hi)]
  have hrun := foldl_applyOp_preserves ns ops (initStore ns ls) rfl hninit
  refine ⟨hrun.2.1, fun j hj => ?_, fun i hi => ?_⟩
  · rw [show (runScene ns ls ops).linkObjs = (initStore ns ls).linkObjs from hrun.2.2]
    simp only [initStore]
    rw [List.getElem?_append_left (by simpa using hj)]
  · simp only [initStore]
    rw [List.getElem?_append_right (by simp)]
    simp

/-- C8 (witness): one node, one self link, a tick and a drag move: the
caller's node object and link object read back unchanged, and the
clone starts as an exact copy of the caller's node. -/
theorem caller_data_unchanged_witness :
    (runScene [⟨"1", "A", "DRUG", none, none⟩] [⟨"1", "1", "self"⟩]
        [SimOp.tick [(7, 8)], SimOp.dragMovePin 0 3 4]).nodeObjs[0]? =
      ([⟨"1", "A", "DRUG", none, none⟩].map toNodeObj)[0]? ∧
    (runScene [⟨"1", "A", "DRUG", none, none⟩] [⟨"1", "1", "self"⟩]
        [SimOp.tick [(7, 8)], SimOp.dragMovePin 0 3 4]).linkObjs[0]? =
      ([⟨"1", "1", "self"⟩].map toLinkObj)[0]? ∧
    (initStore [⟨"1", "A", "DRUG", none, none⟩] [⟨"1", "1", "self"⟩]).nodeObjs[1]? =
      ([⟨"1", "A", "DRUG", none, none⟩].map toNodeObj)[0]? := by
  have h := caller_data_unchanged [⟨"1", "A", "DRUG", none, none⟩]
    [⟨"1", "1", "self"⟩] [SimOp.tick [(7, 8)], SimOp.dragMovePin 0 3 4]
  exact ⟨h.1 0 (by simp), h.2.1 0 (by simp), h.2.2 0 (by simp)⟩

/-- Shape of the circle list after hover then unhover: the hovered
circle keeps the hover stroke colour written by mouseover, while its
radius is recomputed from the encoding formula and its stroke width
reset to 1.5. -/
theorem hover_unhover_circles (cfg : HoverConfig) (ns : List GraphNode)
    (ls : List (Nat × Nat)) (h : Nat) :
    (mouseout cfg h (mouseover cfg h (baselineScene ns ls))).circles =
      updateAt (ns.map (fun d => ⟨d, nodeRadius d, none, none⟩)) h
        (fun c => ⟨c.datum, nodeRadius c.datum, some cfg.hoverNodeStroke,
          some (3 / 2)⟩) := by
  simp only [mouseout, mouseover, baselineScene, updateAt_updateAt]

/-- C2 (counterexample): in the tooltip variant with isDarkMode false,
hovering then un-hovering a node leaves its effective stroke at the
hover colour because the mouseout handler never resets the stroke
attribute: the rendered state is not the baseline, so mouseout after
mouseover is not the identity on the visual-emphasis state. -/
theorem hover_unhover_light_counterexample :
    (mouseout (tooltipConfig false) 0
        (mouseover (tooltipConfig false) 0
          (baselineScene [⟨"1", "A", "DRUG", none, none⟩] []))).circles.map
      (effCircle (tooltipConfig false)) = [(10, "#0f172a", 3 / 2)] ∧
    (baselineScene [⟨"1", "A", "DRUG", none, none⟩] []).circles.map
      (effCircle (tooltipConfig false)) = [(10, "#f8fafc", 3 / 2)] ∧
    effScene (tooltipConfig false)
        (mouseout (tooltipConfig false) 0
          (mouseover (tooltipConfig false) 0
            (baselineScene [⟨"1", "A", "DRUG", none, none⟩] []))) ≠
      effScene (tooltipConfig false)
        (baselineScene [⟨"1", "A", "DRUG", none, none⟩] []) := by
  have h1 : (mouseout (tooltipConfig false) 0
      (mouseover (tooltipConfig false) 0
        (baselineScene [⟨"1", "A", "DRUG", none, none⟩] []))).circles.map
      (effCircle (tooltipConfig false)) = [(10, "#0f172a", 3 / 2)] := by
    simp [mouseout, mouseover, baselineScene, effCircle, tooltipConfig,
      updateAt, nodeRadius]
  have h2 : (baselineScene [⟨"1", "A", "DRUG", none, none⟩] []).circles.map
      (effCircle (tooltipConfig false)) = [(10, "#f8fafc", 3 / 2)] := by
    simp [baselineScene, effCircle, tooltipConfig, nodeRadius]
  refine ⟨h1, h2, ?_⟩
  intro heq
  have hc := congrArg Prod.fst heq
  simp only [effScene] at hc
  rw [h1, h2] at hc
  simp at hc

/-- C2 (amended): hover then unhover restores the hovered node's radius
(recomputed from the encoding formula) and stroke width, every link's
colour, opacity and width, every edge label's visibility, and hides the
tooltip; the node's effective stroke colour is restored exactly when the
hover stroke equals the inherited baseline stroke — true in the
NetworkGraph.tsx variant and the dark-mode tooltip variant, where the
composition is the identity on the whole rendered state, but false in
the light-mode tooltip variant, where the hover stroke persists. -/
theorem hover_unhover_restores (cfg : HoverConfig) (ns : List GraphNode)
    (ls : List (Nat × Nat)) (h : Nat) :
    ((mouseout cfg h (mouseover cfg h (baselineScene ns ls))).circles.map
        (fun c => (c.datum, c.r, c.strokeWidthAttr.getD (3 / 2))) =
      (baselineScene ns ls).circles.map
        (fun c => (c.datum, c.r, c.strokeWidthAttr.getD (3 / 2)))) ∧
    ((mouseout cfg h (mouseover cfg h (baselineScene ns ls))).lines.map
        (effLine cfg) = (baselineScene ns ls).lines.map (effLine cfg)) ∧
    ((mouseout cfg h (mouseover cfg h (baselineScene ns ls))).edgeLabels.map
        effLabel = (baselineScene ns ls).edgeLabels.map effLabel) ∧
    ((mouseout cfg h (mouseover cfg h (baselineScene ns ls))).tooltipOpacity =
      (baselineScene ns ls).tooltipOpacity) ∧
    (cfg.hoverNodeStroke = cfg.groupNodeStroke →
      effScene cfg (mouseout cfg h (mouseover cfg h (baselineScene ns ls))) =
        effScene cfg (baselineScene ns ls)) ∧
    mainConfig.hoverNodeStroke = mainConfig.groupNodeStroke ∧
    (tooltipConfig true).hoverNodeStroke = (tooltipConfig true).groupNodeStroke := by
  have hcirc := hover_unhover_circles cfg ns ls h
  have hlines : (mouseout cfg h (mouseover cfg h (baselineScene ns ls))).lines.map
      (effLine cfg) = (baselineScene ns ls).lines.map (effLine cfg) := by
    simp only [mouseout, mouseover, baselineScene, List.map_map]
    rfl
  have hlabels : (mouseout cfg h (mouseover cfg h (baselineScene ns ls))).edgeLabels.map
      effLabel = (baselineScene ns ls).edgeLabels.map effLabel := by
    simp only [mouseout, mouseover, baselineScene, List.map_map]
    rfl
  have htool : (mouseout cfg h (mouseover cfg h (baselineScene ns ls))).tooltipOpacity =
      (baselineScene ns ls).tooltipOpacity := by
    simp only [mouseout, mouseover, baselineScene]
    cases cfg.hasTooltip <;> simp
  refine ⟨?_, hlines, hlabels, htool, ?_, rfl, rfl⟩
  · rw [hcirc]
    exact map_updateAt_map
      (fun d => ({ datum := d, r := nodeRadius d, strokeAttr := none, strokeWidthAttr := none } : CircleState))
      (fun c => (c.datum, c.r, c.strokeWidthAttr.getD (3 / 2)))
      (fun c => { datum := c.datum, r := nodeRadius c.datum, strokeAttr := some cfg.hoverNodeStroke, strokeWidthAttr := some (3 / 2) })
      (fun d => rfl) ns h
  · intro hstroke
    have hc2 : (mouseout cfg h (mouseover cfg h (baselineScene ns ls))).circles.map
        (effCircle cfg) = (baselineScene ns ls).circles.map (effCircle cfg) := by
      rw [hcirc]
      refine map_updateAt_map
        (fun d => ({ datum := d, r := nodeRadius d, strokeAttr := none, strokeWidthAttr := none } : CircleState))
        (effCircle cfg)
        (fun c => { datum := c.datum, r := nodeRadius c.datum, strokeAttr := some cfg.hoverNodeStroke, strokeWidthAttr := some (3 / 2) })
        (fun d => ?_) ns h
      simp [effCircle, hstroke]
    simp only [effScene]
    rw [hc2, hlines, hlabels, htool]

/-- C2 (witness): in the dark-mode tooltip variant with one node and one
self loop, hover then unhover is the identity on the rendered state. -/
theorem hover_unhover_restores_witness :
    effScene (tooltipConfig true)
        (mouseout (tooltipConfig true) 0
          (mouseover (tooltipConfig true) 0
            (baselineScene [⟨"1", "A", "DRUG", none, none⟩] [(0, 0)]))) =
      effScene (tooltipConfig true)
        (baselineScene [⟨"1", "A", "DRUG", none, none⟩] [(0, 0)]) :=
  (hover_unhover_restores (tooltipConfig true)
    [⟨"1", "A", "DRUG", none, none⟩] [(0, 0)] 0).2.2.2.2.1 rfl

end NeuroGraph
